import Mathlib

/-
Verification of the solarian-datalogger register codec, driver retry
protocol and acquisition cycle, as a shallow embedding in Lean 4.

Conventions of the embedding:
- Modbus register words are Nat values; a frame returned by one bus
  transaction is a List Nat.
- Python floats are modelled as exact rationals; every decode in the
  source is integer arithmetic followed by division by a power of ten,
  which is exact over the rationals.
- A bus transaction that raises (timeout, malformed frame) is modelled
  as none; a transaction that returns a frame is some frame.
- A Python function that can raise is modelled with Option: none is an
  uncaught exception at that level.
- A driver call has three outcomes, mirroring the source: it raises,
  it returns the failure sentinel False, or it returns an OrderedDict
  of values (a Reading).
-/

namespace Solarian

/-- Values stored in a Reading: decoded floats (as rationals) or strings. -/
inductive FieldValue where
  | num (q : ℚ)
  | str (s : String)
deriving DecidableEq

/-- A Reading is an ordered mapping of field name to value
(an OrderedDict in the source). -/
abbrev Reading := List (String × FieldValue)

/-- A frame of 16-bit words returned by one bus read transaction. -/
abbrev Frame := List Nat

/-- The bus as seen by one retry loop: attempt number to outcome.
none models execute raising (timeout or malformed response). -/
abbrev Bus := Nat → Option Frame

/-- Result of a driver get_data call: the call raised, returned the
failure sentinel False, or returned a Reading. -/
inductive PyResult where
  | raised
  | sentinelFalse
  | reading (r : Reading)
deriving DecidableEq

/-! ## Register codec

Embeds convert_registers_to_long and signed, which are repeated
verbatim in every driver module of the repository. -/

/-- Reinterpretation of a 32-bit word as a signed integer, as done by
struct.unpack with a big-endian int32 format. -/
def toSigned32 (n : Nat) : Int :=
  if n < 2 ^ 31 then (n : Int) else (n : Int) - 2 ^ 32

/-- The decimal dictionary of convert_registers_to_long:
\x7b0: 1, 1: 10, 2: 100, 3: 1000\x7d; lookup of any other key raises. -/
def decimal (d : Nat) : Option Nat :=
  match d with
  | 0 => some 1
  | 1 => some 10
  | 2 => some 100
  | 3 => some 1000
  | _ => none

/-- Embeds convert_registers_to_long(start_bit, stop_bit, signed,
decimals, data): pack data[start_bit] and data[stop_bit] big-endian
(high word first), unpack as int32 or uint32, divide by the decimal
scale. none models a raised exception: missing offset (IndexError),
word out of uint16 range (struct.error), or decimals outside 0..3
(KeyError). -/
def convert_registers_to_long (start_bit stop_bit : Nat) (signed : Bool)
    (decimals : Nat) (data : List Nat) : Option ℚ :=
  match data.get? start_bit, data.get? stop_bit, decimal decimals with
  | some hi, some lo, some dec =>
    if hi < 2 ^ 16 ∧ lo < 2 ^ 16 then
      let long_data : Int :=
        if signed then toSigned32 (hi * 2 ^ 16 + lo) else (hi * 2 ^ 16 + lo : Int)
      some ((long_data : ℚ) / (dec : ℚ))
    else none
  | _, _, _ => none

/-- The 32-bit combined integer produced by convert_registers_to_long
before scaling: big-endian concatenation, then the signed or unsigned
unpack. -/
def combinedInt (sgn : Bool) (hi lo : Nat) : Int :=
  if sgn then toSigned32 (hi * 2 ^ 16 + lo) else (hi * 2 ^ 16 + lo : Int)

/-- Embeds signed(value): reinterpret a uint16 word as int16 via
struct pack/unpack; any conversion error (value outside the uint16
range) is caught, logged, and 0 is returned. -/
def signed (value : Nat) : Int :=
  if value < 2 ^ 16 then
    (if value < 2 ^ 15 then (value : Int) else (value : Int) - 2 ^ 16)
  else 0

/-! ## Timestamp -/

/-- A UTC wall-clock instant, the input the source reads from
datetime.utcnow(). -/
structure UtcTime where
  year : Nat
  month : Nat
  day : Nat
  hour : Nat
  minute : Nat
  second : Nat
deriving DecidableEq

/-- Two-digit zero padding as done by strftime. -/
def pad2 (n : Nat) : String :=
  if n < 10 then "0" ++ toString n else toString n

/-- Embeds get_timestamp_for_influxdb: format the current UTC time
with the seconds field hard-coded to 00. -/
def get_timestamp_for_influxdb (now : UtcTime) : String :=
  toString now.year ++ "-" ++ pad2 now.month ++ "-" ++ pad2 now.day ++ "T" ++
    pad2 now.hour ++ ":" ++ pad2 now.minute ++ ":00Z"

/-- Truncation of an instant to the minute. -/
def truncateToMinute (t : UtcTime) : UtcTime :=
  { t with second := 0 }

/-! ## The per-transaction retry loop

Every driver reads each register range with the same loop:

  x = 0
  while x < TRY_AMOUNT:
      try:
          readN = masterTCP.execute(...)
          (optional sanity gate that raises)
          x = TRY_AMOUNT
      except Exception:
          x += 1
          time.sleep(...)

readLoopAux models the loop body with fuel = TRY_AMOUNT - x; the first
component is the final binding of readN (none when no execute call
ever returned, i.e. readN is not in locals), the second component is
the number of execute calls performed. The gate returns true when the
sanity check fails and raises after readN was already bound. -/
def readLoopAux (bus : Bus) (gate : Frame → Bool) :
    Nat → Nat → Option Frame → Option Frame × Nat
  | 0, _, bound => (bound, 0)
  | fuel + 1, x, bound =>
    match bus x with
    | none =>
      let r := readLoopAux bus gate fuel (x + 1) bound
      (r.1, r.2 + 1)
    | some f =>
      if gate f then
        let r := readLoopAux bus gate fuel (x + 1) (some f)
        (r.1, r.2 + 1)
      else (some f, 1)

/-- The retry loop for one register range, started at x = 0 with readN
unbound. -/
def readLoop (bus : Bus) (gate : Frame → Bool) (tryAmount : Nat) :
    Option Frame × Nat :=
  readLoopAux bus gate tryAmount 0 none

/-- Drivers without a sanity check: the try body never raises after a
successful execute. -/
def noGate : Frame → Bool := fun _ => false

/-- The zero-voltage sanity gate of the Schneider ION 7650 drivers:
after a successful execute the driver raises when
convert_registers_to_long(16, 17, False, 0, read1) == 0; an exception
raised by the decode itself lands in the same except clause. -/
def zeroVoltGate (f : Frame) : Bool :=
  match convert_registers_to_long 16 17 false 0 f with
  | some q => q == 0
  | none => true

/-! ## Field decode helpers

Shorthand for the decode expressions appearing in driver parse code.
Each returns none when the register offset is missing (IndexError in
the source). -/

/-- float(data[i]) / d. -/
def fdiv (f : Frame) (i : Nat) (d : ℚ) : Option FieldValue :=
  (f.get? i).map (fun v => .num ((v : ℚ) / d))

/-- float(data[i]) * m. -/
def fmul (f : Frame) (i : Nat) (m : ℚ) : Option FieldValue :=
  (f.get? i).map (fun v => .num ((v : ℚ) * m))

/-- float(data[i]) with no scaling. -/
def fraw (f : Frame) (i : Nat) : Option FieldValue :=
  (f.get? i).map (fun v => .num (v : ℚ))

/-- float(signed(data[i])) with no scaling. -/
def sraw (f : Frame) (i : Nat) : Option FieldValue :=
  (f.get? i).map (fun v => .num ((signed v : ℚ)))

/-- float(signed(data[i])) / d. -/
def sdiv (f : Frame) (i : Nat) (d : ℚ) : Option FieldValue :=
  (f.get? i).map (fun v => .num ((signed v : ℚ) / d))

/-- float(signed(data[i])) * m. -/
def smul (f : Frame) (i : Nat) (m : ℚ) : Option FieldValue :=
  (f.get? i).map (fun v => .num ((signed v : ℚ) * m))

/-- convert_registers_to_long(hi, lo, sgn, dec, data). -/
def clong (hi lo : Nat) (sgn : Bool) (dec : Nat) (f : Frame) : Option FieldValue :=
  (convert_registers_to_long hi lo sgn dec f).map .num

/-- convert_registers_to_long(hi, lo, sgn, dec, data) * m. -/
def clongm (hi lo : Nat) (sgn : Bool) (dec : Nat) (f : Frame) (m : ℚ) :
    Option FieldValue :=
  (convert_registers_to_long hi lo sgn dec f).map (fun q => .num (q * m))

/-- convert_registers_to_long(hi, lo, sgn, dec, data) / d. -/
def clongd (hi lo : Nat) (sgn : Bool) (dec : Nat) (f : Frame) (d : ℚ) :
    Option FieldValue :=
  (convert_registers_to_long hi lo sgn dec f).map (fun q => .num (q / d))

/-- Extraction of one status bit: float(word >> n & 1). -/
def bitField (w n : Nat) : ℚ :=
  (((w >>> n) &&& 1 : Nat) : ℚ)

/-- Status-bit field value. -/
def bitOf (w n : Nat) : FieldValue := .num (bitField w n)

/-- Sequences the field assignments of a parse block: the whole block
raises as soon as one decode raises, and the incomplete dict is
discarded (the driver call raises). -/
def buildReading : List (String × Option FieldValue) → Option Reading
  | [] => some []
  | (k, v) :: rest =>
    match v, buildReading rest with
    | some fv, some r => some ((k, fv) :: r)
    | _, _ => none

/-- The three fields every driver appends before reading the bus. -/
def header (device_name measurement_suffix : String) (now : UtcTime) : Reading :=
  [("Device_Name", .str device_name),
   ("Measurement_Suffix", .str measurement_suffix),
   ("Date", .str (get_timestamp_for_influxdb now))]

/-! ## Driver: dcb_kernel_st0hs2425 (KERNEL_DCB_ST0HS2425) -/

namespace Dcb

/-- Attempt budget of the DCB driver. -/
def TRY_AMOUNT : Nat := 3

/-- Field assignments after the successful read of the 47-word range
starting at address 51. -/
def parse (read1 : Frame) : Option (List (String × FieldValue)) :=
  buildReading
    [("I_DC_1", fdiv read1 0 1000), ("I_DC_2", fdiv read1 1 1000),
     ("I_DC_3", fdiv read1 2 1000), ("I_DC_4", fdiv read1 3 1000),
     ("I_DC_5", fdiv read1 4 1000), ("I_DC_6", fdiv read1 5 1000),
     ("I_DC_7", fdiv read1 6 1000), ("I_DC_8", fdiv read1 7 1000),
     ("I_DC_9", fdiv read1 8 1000), ("I_DC_10", fdiv read1 9 1000),
     ("I_DC_11", fdiv read1 10 1000), ("I_DC_12", fdiv read1 11 1000),
     ("I_DC_13", fdiv read1 12 1000), ("I_DC_14", fdiv read1 13 1000),
     ("I_DC_15", fdiv read1 14 1000), ("I_DC_16", fdiv read1 15 1000),
     ("I_DC_17", fdiv read1 16 1000), ("I_DC_18", fdiv read1 17 1000),
     ("I_DC_19", fdiv read1 18 1000), ("I_DC_20", fdiv read1 19 1000),
     ("I_DC_21", fdiv read1 20 1000), ("I_DC_22", fdiv read1 21 1000),
     ("I_DC_23", fdiv read1 22 1000), ("I_DC_24", fdiv read1 23 1000),
     ("V_DC", fraw read1 32),
     ("Cabinet_Temp", fraw read1 37), ("Board_Temp", fraw read1 38),
     ("Total_Current", fdiv read1 39 10),
     ("Power", clong 41 40 false 0 read1)]

/-- Embeds get_data of drivers/dcb_kernel_st0hs2425.py: one retried
read transaction, failure sentinel when read1 never bound, then the
parse of the frame. -/
def get_data (device_name measurement_suffix : String) (now : UtcTime)
    (bus : Bus) : PyResult :=
  match (readLoop bus noGate TRY_AMOUNT).1 with
  | none => .sentinelFalse
  | some read1 =>
    match parse read1 with
    | some fields => .reading (header device_name measurement_suffix now ++ fields)
    | none => .raised

end Dcb

/-! ## Driver: schneider_ion_7650 (SCHNEIDER_ION_7650_TCP) -/

namespace Ion7650

/-- Attempt budget of the Schneider ION 7650 driver. -/
def TRY_AMOUNT : Nat := 3

/-- Field assignments after the successful read of the 94-word range
starting at address 40150. -/
def parse (f : Frame) : Option (List (String × FieldValue)) :=
  buildReading
    [("Ia", fmul f 0 10), ("Ib", fmul f 1 10), ("Ic", fmul f 2 10),
     ("I4", fmul f 3 10), ("I5", fmul f 4 10),
     ("I_Avg", fmul f 5 10), ("I_Avg_min", fmul f 6 10),
     ("I_Avg_max", fmul f 7 10), ("I_Avg_mean", fmul f 8 10),
     ("Freq", fmul f 9 10), ("Freq_min", fmul f 10 10),
     ("Freq_max", fmul f 11 10), ("Freq_mean", fmul f 12 10),
     ("V_unbal", fmul f 13 10), ("I_unbal", fmul f 14 10),
     ("Phase_Rev", fmul f 15 10),
     ("Vln_a", clong 16 17 false 0 f), ("Vln_b", clong 18 19 false 0 f),
     ("Vln_c", clong 20 21 false 0 f), ("Vln_avg", clong 22 23 false 0 f),
     ("Vln_avg_max", clong 24 25 false 0 f),
     ("Vll_ab", clong 26 27 false 0 f), ("Vll_ac", clong 28 29 false 0 f),
     ("Vll_ca", clong 30 31 false 0 f), ("Vll_avg", clong 32 33 false 0 f),
     ("Vll_avg_max", clong 34 35 false 0 f), ("Vll_avg_min", clong 36 37 false 0 f),
     ("kW_a", clong 38 39 true 0 f), ("kW_b", clong 40 41 true 0 f),
     ("kW_c", clong 42 43 true 0 f), ("kW_tot", clong 44 45 true 0 f),
     ("kW_tot_max", clong 46 47 true 0 f),
     ("kVAR_a", clong 48 49 true 0 f), ("kVAR_b", clong 50 51 true 0 f),
     ("kVAR_c", clong 52 53 true 0 f), ("kVAR_tot", clong 54 55 true 0 f),
     ("kVAR_tot_max", clong 56 57 true 0 f),
     ("kVA_a", clong 58 59 true 0 f), ("kVA_b", clong 60 61 true 0 f),
     ("kVA_c", clong 62 63 true 0 f), ("kVA_tot", clong 64 65 true 0 f),
     ("kVA_tot_max", clong 66 67 true 0 f),
     ("kWh_del", clong 68 69 true 0 f), ("kWh_rec", clong 70 71 true 0 f),
     ("kVARh_del", clong 72 73 true 0 f), ("kVARh_rec", clong 74 75 true 0 f),
     ("kVAh_drec", clong 76 77 true 0 f),
     ("PF_sign_a", smul f 78 100), ("PF_sign_b", smul f 79 100),
     ("PF_sign_c", smul f 80 100), ("PF_sign_tot", smul f 81 100),
     ("V1_THD_max", smul f 82 100), ("V2_THD_max", smul f 83 100),
     ("V3_THD_max", smul f 84 100), ("I1_THD_max", smul f 85 100),
     ("I2_THD_max", smul f 86 100), ("I3_THD_max", smul f 87 100),
     ("I1_K_Fact", smul f 88 100), ("I2_K_Fact", smul f 89 100),
     ("I3_K_Fact", smul f 90 100), ("I1_Crest_Fact", smul f 91 100),
     ("I2_Crest_Fact", smul f 92 100), ("I3_Crest_Fact", smul f 93 100)]

/-- Embeds get_data of drivers/schneider_ion_7650.py: one retried read
with the zero-voltage sanity gate, failure sentinel only when read1
never bound, then the parse of the (last bound) frame. -/
def get_data (device_name measurement_suffix : String) (now : UtcTime)
    (bus : Bus) : PyResult :=
  match (readLoop bus zeroVoltGate TRY_AMOUNT).1 with
  | none => .sentinelFalse
  | some read1 =>
    match parse read1 with
    | some fields => .reading (header device_name measurement_suffix now ++ fields)
    | none => .raised

end Ion7650

/-! ## Driver: schneider_ion_7650_inavitas (SCHNEIDER_ION_7650_TCP variant) -/

namespace IonInavitas

/-- Attempt budget of the Inavitas variant. -/
def TRY_AMOUNT : Nat := 3

/-- Field assignments after the successful read of the 122-word range
starting at address 149. -/
def parse (f : Frame) : Option (List (String × FieldValue)) :=
  buildReading
    [("Ia", fdiv f 0 10), ("Ib", fdiv f 1 10), ("Ic", fdiv f 2 10),
     ("Freq", fdiv f 9 10),
     ("Vll_ab", clong 28 29 false 0 f), ("Vll_ac", clong 30 31 false 0 f),
     ("Vll_ca", clong 32 33 false 0 f),
     ("kW_tot", clong 54 55 true 0 f), ("kVAR_tot", clong 64 65 true 0 f),
     ("kVA_tot", clong 74 75 true 0 f),
     ("kWh_del", clong 80 81 true 0 f), ("kWh_rec", clong 82 83 true 0 f),
     ("kVARh_del", clong 84 85 true 0 f), ("kVARh_rec", clong 86 87 true 0 f),
     ("I1_THD_max", sdiv f 119 100), ("I2_THD_max", sdiv f 120 100),
     ("I3_THD_max", sdiv f 121 100), ("V1_THD_max", sdiv f 116 100),
     ("V2_THD_max", sdiv f 117 100), ("V3_THD_max", sdiv f 118 100),
     ("PF_tot", sdiv f 115 100)]

/-- Embeds get_data of drivers/schneider_ion_7650_inavitas.py. -/
def get_data (device_name measurement_suffix : String) (now : UtcTime)
    (bus : Bus) : PyResult :=
  match (readLoop bus zeroVoltGate TRY_AMOUNT).1 with
  | none => .sentinelFalse
  | some read1 =>
    match parse read1 with
    | some fields => .reading (header device_name measurement_suffix now ++ fields)
    | none => .raised

end IonInavitas

/-! ## Driver: ekk_schneider_ion_7650 (EKK variant; same read, gate and
field map as the Inavitas variant) -/

namespace IonEkk

/-- Attempt budget of the EKK variant. -/
def TRY_AMOUNT : Nat := 3

/-- Field assignments of drivers/ekk_schneider_ion_7650.py, identical
to the Inavitas variant. -/
def parse (f : Frame) : Option (List (String × FieldValue)) :=
  buildReading
    [("Ia", fdiv f 0 10), ("Ib", fdiv f 1 10), ("Ic", fdiv f 2 10),
     ("Freq", fdiv f 9 10),
     ("Vll_ab", clong 28 29 false 0 f), ("Vll_ac", clong 30 31 false 0 f),
     ("Vll_ca", clong 32 33 false 0 f),
     ("kW_tot", clong 54 55 true 0 f), ("kVAR_tot", clong 64 65 true 0 f),
     ("kVA_tot", clong 74 75 true 0 f),
     ("kWh_del", clong 80 81 true 0 f), ("kWh_rec", clong 82 83 true 0 f),
     ("kVARh_del", clong 84 85 true 0 f), ("kVARh_rec", clong 86 87 true 0 f),
     ("I1_THD_max", sdiv f 119 100), ("I2_THD_max", sdiv f 120 100),
     ("I3_THD_max", sdiv f 121 100), ("V1_THD_max", sdiv f 116 100),
     ("V2_THD_max", sdiv f 117 100), ("V3_THD_max", sdiv f 118 100),
     ("PF_tot", sdiv f 115 100)]

/-- Embeds get_data of drivers/ekk_schneider_ion_7650.py. -/
def get_data (device_name measurement_suffix : String) (now : UtcTime)
    (bus : Bus) : PyResult :=
  match (readLoop bus zeroVoltGate TRY_AMOUNT).1 with
  | none => .sentinelFalse
  | some read1 =>
    match parse read1 with
    | some fields => .reading (header device_name measurement_suffix now ++ fields)
    | none => .raised

end IonEkk

/-! ## Driver: inv_abb_pvs800 (ABB_PVS800_TCP) -/

namespace Pvs800

/-- Attempt budget of the PVS800 driver. -/
def TRY_AMOUNT : Nat := 3

/-- Field assignments after the three successful reads (42496 x 7,
42545 x 27, 42599 x 8): the numeric fields, then the status words
extracted from the untouched frames and decoded bit by bit. -/
def parse (read1 read2 read3 : Frame) : Option (List (String × FieldValue)) :=
  match buildReading
    [("Active_Power", sraw read1 2), ("Reactive_Power", sraw read1 3),
     ("Grid_Voltage", fdiv read1 4 10), ("Grid_Frequency", fdiv read1 5 100),
     ("PowerFactor", sdiv read1 6 1000),
     ("L1_Voltage", fdiv read2 1 10), ("L2_Voltage", fdiv read2 2 10),
     ("L3_Voltage", fdiv read2 3 10), ("Grid_Current", fdiv read2 4 10),
     ("DC_Input_Voltage", fdiv read2 5 10), ("DC_Bus_Voltage", fdiv read2 6 10),
     ("DC_Input_Current", fdiv read2 7 10),
     ("Grounding_Current", fdiv read2 8 1), ("Isolation_Resistance", fdiv read2 9 1),
     ("Inverter_Ambient_Temp", sdiv read2 10 10),
     ("Highest_IGBT_Temp_PU1", sdiv read2 11 10),
     ("Highest_IGBT_Temp_PU21", sdiv read2 12 10),
     ("Highest_IGBT_Temp_PU31", sdiv read2 13 10),
     ("Highest_IGBT_Temp_PU41", sdiv read2 14 10),
     ("Control_Section_Temp", sdiv read2 15 10),
     ("Daily_kWh", clongd 19 20 false 3 read2 1),
     ("Total_kWh", clongm 21 22 false 1 read2 10),
     ("Daily_kVAh", clongd 23 24 false 3 read2 1),
     ("Total_kVAh", clongm 25 26 false 1 read2 10)],
    read1.get? 1, read3.get? 1, read3.get? 3, read3.get? 4, read3.get? 5,
    read3.get? 7 with
  | some numerics, some main_w, some lim_w, some mppt_w, some grid_w,
    some fan_w, some env_w =>
    some (numerics ++
      [("Status_Main_ReadyToSwitchOn", bitOf main_w 0),
       ("Status_Main_Faulted", bitOf main_w 1),
       ("Status_Main_Warning", bitOf main_w 2),
       ("Status_Main_MPPTEnabled", bitOf main_w 3),
       ("Status_Main_GridStable", bitOf main_w 4),
       ("Status_Main_DCVoltageWithinLimits", bitOf main_w 5),
       ("Status_Main_StartInhibited", bitOf main_w 6),
       ("Status_Main_ReducedRun", bitOf main_w 7),
       ("Status_Main_RedundantRun", bitOf main_w 8),
       ("Status_Main_QCompansation", bitOf main_w 9),
       ("Status_Main_Limited", bitOf main_w 10),
       ("Status_Main_GridConnected", bitOf main_w 11),
       ("Status_Limiting_IGBTTempCurrentLimitation", bitOf lim_w 0),
       ("Status_Limiting_PfLimitation", bitOf lim_w 1),
       ("Status_Limiting_PuLimitation", bitOf lim_w 2),
       ("Status_Limiting_GridFaultLimitation", bitOf lim_w 3),
       ("Status_Limiting_ExternalPowerLimit", bitOf lim_w 4),
       ("Status_Limiting_FRTRecoveryLimit", bitOf lim_w 5),
       ("Status_Limiting_ShutdownRampLimit", bitOf lim_w 6),
       ("Status_Limiting_PowerGradientLimit", bitOf lim_w 7),
       ("Status_Limiting_FRTInteraction", bitOf lim_w 8),
       ("Status_Limiting_AmbientTempLimitation", bitOf lim_w 9),
       ("Status_Limiting_PowerSectionTempLimitation", bitOf lim_w 11),
       ("Status_MPPT_MPPTMode", bitOf mppt_w 0),
       ("Status_MPPT_PowerLimitationActive", bitOf mppt_w 1),
       ("Status_MPPT_MinVoltageLimitActive", bitOf mppt_w 2),
       ("Status_MPPT_MaxVoltageLimitActive", bitOf mppt_w 3),
       ("Status_Grid_Undervoltage", bitOf grid_w 0),
       ("Status_Grid_Overvoltage", bitOf grid_w 1),
       ("Status_Grid_Underfrequency", bitOf grid_w 2),
       ("Status_Grid_Overfrequency", bitOf grid_w 3),
       ("Status_Grid_AntiIslandingTrip", bitOf grid_w 4),
       ("Status_Grid_RoCoFTrip", bitOf grid_w 5),
       ("Status_Grid_CombinatoryTrip", bitOf grid_w 6),
       ("Status_Grid_MovingAverageTrip", bitOf grid_w 7),
       ("Status_Grid_ZeroCrossingTrip", bitOf grid_w 8),
       ("Status_Grid_LVRTTrip", bitOf grid_w 9),
       ("Status_Grid_HVRTTrip", bitOf grid_w 10),
       ("Status_Grid_ExternalMonitorTrip", bitOf grid_w 11),
       ("Status_Fan_PowerUnit1", bitOf fan_w 0),
       ("Status_Fan_PowerUnit2", bitOf fan_w 1),
       ("Status_Fan_PowerUnit3", bitOf fan_w 2),
       ("Status_Fan_PowerUnit4", bitOf fan_w 3),
       ("Status_Fan_ISU1Fan", bitOf fan_w 4),
       ("Status_Fan_ISU2Fan", bitOf fan_w 5),
       ("Status_Fan_DoorFanCircuitBreaker", bitOf fan_w 6),
       ("Status_Environment_ACBusbarThermalProtection", bitOf env_w 0),
       ("Status_Environment_DCBusbarThermalProtection", bitOf env_w 1),
       ("Status_Environment_ColdAmbientTempWarning", bitOf env_w 2),
       ("Status_Environment_ColdAmbientTempFault", bitOf env_w 3),
       ("Status_Environment_HotAmbientTempWarning", bitOf env_w 4),
       ("Status_Environment_HotAmbientTempFault", bitOf env_w 5),
       ("Status_Environment_IGBTTempWarning", bitOf env_w 6),
       ("Status_Environment_IGBTTempFault", bitOf env_w 7)])
  | _, _, _, _, _, _, _ => none

/-- Embeds get_data of drivers/inv_abb_pvs800.py: three retried read
transactions; the failure sentinel as soon as one range never bound;
then the parse. -/
def get_data (device_name measurement_suffix : String) (now : UtcTime)
    (bus1 bus2 bus3 : Bus) : PyResult :=
  match (readLoop bus1 noGate TRY_AMOUNT).1 with
  | none => .sentinelFalse
  | some read1 =>
    match (readLoop bus2 noGate TRY_AMOUNT).1 with
    | none => .sentinelFalse
    | some read2 =>
      match (readLoop bus3 noGate TRY_AMOUNT).1 with
      | none => .sentinelFalse
      | some read3 =>
        match parse read1 read2 read3 with
        | some fields =>
          .reading (header device_name measurement_suffix now ++ fields)
        | none => .raised

end Pvs800

/-! ## Driver: inv_abb_pvs980 (ABB_PVS980_TCP) -/

namespace Pvs980

/-- Attempt budget of the PVS980 driver, the one outlier at 10. -/
def TRY_AMOUNT : Nat := 10

/-- Field assignments after the three successful reads (42496 x 7,
42545 x 33, 42599 x 13). -/
def parse (read1 read2 read3 : Frame) : Option (List (String × FieldValue)) :=
  match buildReading
    [("Active_Power", sraw read1 2), ("Reactive_Power", sraw read1 3),
     ("Grid_Voltage", fdiv read1 4 10), ("Grid_Frequency", fdiv read1 5 100),
     ("PowerFactor", sdiv read1 6 1000),
     ("Code_ActiveFault", fdiv read2 0 1),
     ("L1_Voltage", fdiv read2 1 10), ("L2_Voltage", fdiv read2 2 10),
     ("L3_Voltage", fdiv read2 3 10), ("Grid_Current", fdiv read2 4 10),
     ("DC_Input_Voltage", fdiv read2 5 10), ("DC_Bus_Voltage", fdiv read2 6 10),
     ("DC_Input_Current", fdiv read2 7 10),
     ("Grounding_Current", fdiv read2 8 1), ("Isolation_Resistance", fdiv read2 9 1),
     ("Inverter_Ambient_Temp", sdiv read2 10 10),
     ("Highest_IGBT_Temp_M1", sdiv read2 11 10),
     ("Highest_IGBT_Temp_M2", sdiv read2 12 10),
     ("Highest_IGBT_Temp_M3", sdiv read2 13 10),
     ("Highest_IGBT_Temp_M4", sdiv read2 14 10),
     ("Control_Section_Temp", sdiv read2 15 10),
     ("Highest_Cabinet_Temp_M1", sdiv read2 16 10),
     ("Highest_Cabinet_Temp_M2", sdiv read2 17 10),
     ("Highest_Cabinet_Temp_M3", sdiv read2 18 10),
     ("Highest_Cabinet_Temp_M4", sdiv read2 19 10),
     ("Highest_LCL_Temp_M1", sdiv read2 20 10),
     ("Highest_LCL_Temp_M2", sdiv read2 21 10),
     ("Highest_LCL_Temp_M3", sdiv read2 22 10),
     ("Highest_LCL_Temp_M4", sdiv read2 23 10),
     ("Inverter_Section_Humidity", sdiv read2 24 10),
     ("Daily_kWh", clong 25 26 false 3 read2),
     ("Total_kWh", clongm 27 28 false 1 read2 10),
     ("Daily_kVAh", clong 29 30 false 3 read2),
     ("Total_kVAh", clongm 31 32 false 1 read2 10)],
    read3.get? 0, read1.get? 1, read3.get? 3, read3.get? 5, read3.get? 6,
    read3.get? 7, read3.get? 8, read3.get? 9, read3.get? 10, read3.get? 11,
    read3.get? 12 with
  | some numerics, some em_w, some main_w, some lim_w, some mppt_w,
    some grid_w, some fan1_w, some fan2_w, some env_w, some flt1_w,
    some flt2_w, some alarm_w =>
    some (numerics ++
      [("Status_Electromechanical_ACContactorM1", bitOf em_w 0),
       ("Status_Electromechanical_ACContactorM2", bitOf em_w 1),
       ("Status_Electromechanical_ACContactorM3", bitOf em_w 2),
       ("Status_Electromechanical_ACContactorM4", bitOf em_w 3),
       ("Status_Electromechanical_DCContactorM1", bitOf em_w 4),
       ("Status_Electromechanical_DCContactorM2", bitOf em_w 5),
       ("Status_Electromechanical_DCContactorM3", bitOf em_w 6),
       ("Status_Electromechanical_DCContactorM4", bitOf em_w 7),
       ("Status_Electromechanical_ACSwitchM1", bitOf em_w 8),
       ("Status_Electromechanical_ACSwitchM2", bitOf em_w 9),
       ("Status_Electromechanical_ACSwitchM3", bitOf em_w 10),
       ("Status_Electromechanical_ACSwitchM4", bitOf em_w 11),
       ("Status_Electromechanical_DCSwitchM1", bitOf em_w 12),
       ("Status_Electromechanical_DCSwitchM2", bitOf em_w 13),
       ("Status_Electromechanical_DCSwitchM3", bitOf em_w 14),
       ("Status_Electromechanical_DCSwitchM4", bitOf em_w 15),
       ("Status_Main_ReadyToSwitchOn", bitOf main_w 0),
       ("Status_Main_Faulted", bitOf main_w 1),
       ("Status_Main_Warning", bitOf main_w 2),
       ("Status_Main_MPPTEnabled", bitOf main_w 3),
       ("Status_Main_GridStable", bitOf main_w 4),
       ("Status_Main_DCVoltageWithinLimits", bitOf main_w 5),
       ("Status_Main_StartInhibited", bitOf main_w 6),
       ("Status_Main_ReducedRun", bitOf main_w 7),
       ("Status_Main_RedundantRun", bitOf main_w 8),
       ("Status_Main_QCompansation", bitOf main_w 9),
       ("Status_Main_Limited", bitOf main_w 10),
       ("Status_Limiting_IGBTTempCurrentLimitation", bitOf lim_w 0),
       ("Status_Limiting_PfLimitation", bitOf lim_w 1),
       ("Status_Limiting_PuLimitation", bitOf lim_w 2),
       ("Status_Limiting_GridFaultLimitation", bitOf lim_w 3),
       ("Status_Limiting_ExternalPowerLimit", bitOf lim_w 4),
       ("Status_Limiting_FRTRecoveryLimit", bitOf lim_w 5),
       ("Status_Limiting_ShutdownRampLimit", bitOf lim_w 6),
       ("Status_Limiting_PowerGradientLimit", bitOf lim_w 7),
       ("Status_Limiting_FRTInteraction", bitOf lim_w 8),
       ("Status_Limiting_AmbientTempLimitation", bitOf lim_w 9),
       ("Status_Limiting_ControlSectionTempLimitation", bitOf lim_w 10),
       ("Status_Limiting_ACDCSectionTempLimitation", bitOf lim_w 11),
       ("Status_Limiting_LCLSectionTempLimitation", bitOf lim_w 12),
       ("Status_Limiting_InputDCDCSectionTempLimitation", bitOf lim_w 14),
       ("Status_MPPT_MPPTMode", bitOf mppt_w 0),
       ("Status_MPPT_PowerLimitationActive", bitOf mppt_w 1),
       ("Status_MPPT_MinVoltageLimitActive", bitOf mppt_w 2),
       ("Status_MPPT_MaxVoltageLimitActive", bitOf mppt_w 3),
       ("Status_Grid_Undervoltage", bitOf grid_w 0),
       ("Status_Grid_Overvoltage", bitOf grid_w 1),
       ("Status_Grid_Underfrequency", bitOf grid_w 2),
       ("Status_Grid_Overfrequency", bitOf grid_w 3),
       ("Status_Grid_AntiIslandingTrip", bitOf grid_w 4),
       ("Status_Grid_RoCoFTrip", bitOf grid_w 5),
       ("Status_Grid_CombinatoryTrip", bitOf grid_w 6),
       ("Status_Grid_MovingAverageTrip", bitOf grid_w 7),
       ("Status_Grid_ZeroCrossingTrip", bitOf grid_w 8),
       ("Status_Grid_LVRTTrip", bitOf grid_w 9),
       ("Status_Grid_HVRTTrip", bitOf grid_w 10),
       ("Status_Grid_ExternalMonitorTrip", bitOf grid_w 11),
       ("Status_Fan_MainChannel1Fan1", bitOf fan1_w 0),
       ("Status_Fan_MainChannel1Fan2", bitOf fan1_w 1),
       ("Status_Fan_MainChannel1Fan3", bitOf fan1_w 2),
       ("Status_Fan_MainChannel1Fan4", bitOf fan1_w 3),
       ("Status_Fan_MainChannel2Fan1", bitOf fan1_w 4),
       ("Status_Fan_MainChannel2Fan2", bitOf fan1_w 5),
       ("Status_Fan_MainChannel2Fan3", bitOf fan1_w 6),
       ("Status_Fan_MainChannel2Fan4", bitOf fan1_w 7),
       ("Status_Fan_MainChannel3Fan1", bitOf fan1_w 8),
       ("Status_Fan_MainChannel3Fan2", bitOf fan1_w 9),
       ("Status_Fan_MainChannel3Fan3", bitOf fan1_w 10),
       ("Status_Fan_MainChannel3Fan4", bitOf fan1_w 11),
       ("Status_Fan_MainChannel4Fan1", bitOf fan1_w 12),
       ("Status_Fan_MainChannel4Fan2", bitOf fan1_w 13),
       ("Status_Fan_MainChannel4Fan3", bitOf fan1_w 14),
       ("Status_Fan_MainChannel4Fan4", bitOf fan1_w 15),
       ("Status_Fan_LCLM1Fan1", bitOf fan2_w 0),
       ("Status_Fan_LCLM1Fan2", bitOf fan2_w 1),
       ("Status_Fan_LCLM2Fan1", bitOf fan2_w 2),
       ("Status_Fan_LCLM2Fan2", bitOf fan2_w 3),
       ("Status_Fan_LCLM3Fan1", bitOf fan2_w 4),
       ("Status_Fan_LCLM3Fan2", bitOf fan2_w 5),
       ("Status_Fan_LCLM4Fan1", bitOf fan2_w 6),
       ("Status_Fan_LCLM4Fan2", bitOf fan2_w 7),
       ("Status_Fan_ACDCIndoorFanM1", bitOf fan2_w 8),
       ("Status_Fan_ACDCIndoorFanM2", bitOf fan2_w 9),
       ("Status_Fan_ACDCIndoorFanM3", bitOf fan2_w 10),
       ("Status_Fan_ACDCIndoorFanM4", bitOf fan2_w 11),
       ("Status_Environment_OverTempDetected", bitOf env_w 1),
       ("Status_Environment_ColdAmbientTempDetected", bitOf env_w 2),
       ("Status_Environment_ExcessHumidityDetected", bitOf env_w 3),
       ("Status_Environment_CabinetHeatingOn", bitOf env_w 4),
       ("Status_Environment_HotAmbientTempDetected", bitOf env_w 5),
       ("Status_Environment_ColdPowerSectionTemp", bitOf env_w 6),
       ("Status_Fault_FastPoweroff", bitOf flt1_w 0),
       ("Status_Fault_AmbientSituation", bitOf flt1_w 1),
       ("Status_Fault_GroundingCurrent", bitOf flt1_w 2),
       ("Status_Fault_InsulationResistance", bitOf flt1_w 3),
       ("Status_Fault_GroundingCircuitVoltage", bitOf flt1_w 4),
       ("Status_Fault_ReverseCurrentFault", bitOf flt1_w 5),
       ("Status_Fault_DCOvercurrentFault", bitOf flt1_w 6),
       ("Status_Fault_PLCLinkFault", bitOf flt1_w 7),
       ("Status_Fault_FanFault", bitOf flt1_w 8),
       ("Status_Fault_ACContactor", bitOf flt1_w 9),
       ("Status_Fault_DCContactor", bitOf flt1_w 10),
       ("Status_Fault_DCSwitch", bitOf flt1_w 11),
       ("Status_Fault_MainCircuitSPDFault", bitOf flt1_w 12),
       ("Status_Fault_DCFuse", bitOf flt1_w 13),
       ("Status_Fault_48VPowerSupply", bitOf flt1_w 14),
       ("Status_Fault_InternalSWFault1", bitOf flt1_w 15),
       ("Status_Fault_48VBuffer", bitOf flt2_w 0),
       ("Status_Fault_24VBuffer", bitOf flt2_w 1),
       ("Status_Fault_AuxCircuit", bitOf flt2_w 2),
       ("Status_Fault_LCLPressureSensor", bitOf flt2_w 3),
       ("Status_Fault_Door", bitOf flt2_w 4),
       ("Status_Fault_ACBreaker", bitOf flt2_w 5),
       ("Status_Fault_ACOvercurrent", bitOf flt2_w 6),
       ("Status_Fault_ShortCircuit", bitOf flt2_w 7),
       ("Status_Fault_BUCurrentDifference", bitOf flt2_w 8),
       ("Status_Fault_InputPhaseLoss", bitOf flt2_w 9),
       ("Status_Fault_ControlSectionOverTemp", bitOf flt2_w 10),
       ("Status_Fault_IGBTOverTemp", bitOf flt2_w 11),
       ("Status_Fault_ACDCCabinetOverTemp", bitOf flt2_w 12),
       ("Status_Fault_LCLSectionOverTemp", bitOf flt2_w 13),
       ("Status_Fault_PowerUnitLost", bitOf flt2_w 14),
       ("Status_Fault_InternalSWFault2", bitOf flt2_w 15),
       ("Status_Alarm_GroundingCurrentSuddenChange", bitOf alarm_w 0),
       ("Status_Alarm_ResidualCurrent", bitOf alarm_w 1),
       ("Status_Alarm_GroundingCurrentOvervoltage", bitOf alarm_w 2),
       ("Status_Alarm_InsulationResistance", bitOf alarm_w 3),
       ("Status_Alarm_TempSensorAlarm", bitOf alarm_w 4),
       ("Status_Alarm_SCADADataInputOutOfRange", bitOf alarm_w 5),
       ("Status_Alarm_DCLinkOvervoltage", bitOf alarm_w 6),
       ("Status_Alarm_DCInputOvervoltage", bitOf alarm_w 7),
       ("Status_Alarm_MainCircuit", bitOf alarm_w 8),
       ("Status_Alarm_SPD", bitOf alarm_w 9),
       ("Status_Alarm_48VPowerSupply", bitOf alarm_w 10),
       ("Status_Alarm_48VBuffer", bitOf alarm_w 11),
       ("Status_Alarm_24VBuffer", bitOf alarm_w 12),
       ("Status_Alarm_AuxCircuitBreaker", bitOf alarm_w 13),
       ("Status_Alarm_LCLPressureSensor", bitOf alarm_w 14),
       ("Status_Alarm_ACDCDoor", bitOf alarm_w 15)])
  | _, _, _, _, _, _, _, _, _, _, _, _ => none

/-- Embeds get_data of drivers/inv_abb_pvs980.py: three retried read
transactions with the 10-attempt budget; the failure sentinel as soon
as one range never bound; then the parse. -/
def get_data (device_name measurement_suffix : String) (now : UtcTime)
    (bus1 bus2 bus3 : Bus) : PyResult :=
  match (readLoop bus1 noGate TRY_AMOUNT).1 with
  | none => .sentinelFalse
  | some read1 =>
    match (readLoop bus2 noGate TRY_AMOUNT).1 with
    | none => .sentinelFalse
    | some read2 =>
      match (readLoop bus3 noGate TRY_AMOUNT).1 with
      | none => .sentinelFalse
      | some read3 =>
        match parse read1 read2 read3 with
        | some fields =>
          .reading (header device_name measurement_suffix now ++ fields)
        | none => .raised

end Pvs980

/-! ## System telemetry: drivers/raspberry.py -/

/-- External inputs of get_raspberry_internals: the psutil and
vcgencmd measurements, as exact rationals. -/
structure RaspberryStats where
  cpu_temp : ℚ
  cpu_usage : ℚ
  load_0 : ℚ
  load_1 : ℚ
  load_2 : ℚ
  ram_cached : ℚ
  ram_used : ℚ
  ram_free : ℚ
  ram_available : ℚ
  ram_percent : ℚ
  disk_total : ℚ
  disk_used : ℚ
  disk_free : ℚ
  disk_percent : ℚ

/-- Rounding to two decimal places, modelling round(x, 2). -/
def round2 (q : ℚ) : ℚ := ((round (q * 100) : ℤ) : ℚ) / 100

/-- Embeds get_raspberry_internals: the fixed system-telemetry Reading
(CPU, load, RAM, disk, date, serial). It carries a Device_Name and a
Date, and no Measurement_Suffix field. -/
def get_raspberry_internals (st : RaspberryStats) (now : UtcTime)
    (serial : String) : Reading :=
  [("Device_Name", .str "SOLARIAN_DATALOGGER"),
   ("CPU_Temp", .num st.cpu_temp),
   ("CPU_Usage", .num st.cpu_usage),
   ("SystemLoad_5mins", .num st.load_0),
   ("SystemLoad_10mins", .num st.load_1),
   ("SystemLoad_15mins", .num st.load_2),
   ("RAM_Cached", .num (round2 (st.ram_cached / 2 ^ 20))),
   ("RAM_Used", .num (round2 (st.ram_used / 2 ^ 20))),
   ("RAM_Free", .num (round2 (st.ram_free / 2 ^ 20))),
   ("RAM_Available", .num (round2 (st.ram_available / 2 ^ 20))),
   ("RAM_Percent", .num st.ram_percent),
   ("DISK_Total", .num (round2 (st.disk_total / 2 ^ 30))),
   ("DISK_Used", .num (round2 (st.disk_used / 2 ^ 30))),
   ("DISK_Free", .num (round2 (st.disk_free / 2 ^ 30))),
   ("DISK_Percent", .num st.disk_percent),
   ("Date", .str (get_timestamp_for_influxdb now)),
   ("Device_Serial", .str serial)]

/-! ## Acquisition cycle: datalogger.py main, lines 55-66

For each device of the configuration, in order: when enabled, import
the driver and call get_data inside a try block; append the result to
data_package when it is not the sentinel False; an exception is logged
and the loop continues with the next device. -/

/-- A Device Descriptor from the configuration file. -/
structure Device where
  name : String
  driver : String
  ip_address : String
  port : Nat
  slave_id : Nat
  measurement : String
  enabled : Bool

/-- Outcome of one device in the cycle: the driver returned a Reading,
returned the failure sentinel False, or the body raised (import
failure, decode IndexError and so on). -/
inductive DriverOutcome where
  | ok (r : Reading)
  | failed
  | raised

/-- Translation of a driver call result to the cycle outcome: the
source tests data != False before appending. -/
def outcomeOf : PyResult → DriverOutcome
  | .reading r => .ok r
  | .sentinelFalse => .failed
  | .raised => .raised

/-- Body of the device loop for one device. -/
def cycleStep (data_package : List Reading) (d : Device)
    (outcome : Device → DriverOutcome) : List Reading :=
  if d.enabled then
    match outcome d with
    | .ok r => data_package ++ [r]
    | .failed => data_package
    | .raised => data_package
  else data_package

/-- The device loop of main: fold the body over the configured devices
starting from the empty data_package. -/
def runCycle (devices : List Device) (outcome : Device → DriverOutcome) :
    List Reading :=
  devices.foldl (fun pkg d => cycleStep pkg d outcome) []

/-- Devices the loop actually reads. -/
def enabledDevices (devices : List Device) : List Device :=
  devices.filter (fun d => d.enabled)

/-- True when the outcome carries a Reading. -/
def isOk : DriverOutcome → Bool
  | .ok _ => true
  | _ => false

/-- The Reading carried by an ok outcome. -/
def readingPart : DriverOutcome → Option Reading
  | .ok r => some r
  | _ => none

/-- The Reading carried by a driver result, defaulting to the empty
mapping; used to name the Reading of a concrete successful run. -/
def readingOf : PyResult → Reading
  | .reading r => r
  | _ => []

/-! ## Concrete inputs used to exercise the embedding -/

/-- A bus that raises (times out) on every attempt. -/
def busNone : Bus := fun _ => none

/-- A full-length Schneider ION frame whose words are all zero: its
voltage slice decodes to exactly 0. -/
def frame94zero : Frame := List.replicate 94 0

/-- A bus whose every transaction succeeds with the zero frame. -/
def bus94zero : Bus := fun _ => some frame94zero

/-- A full-length Schneider ION frame of ones: nonzero voltage. -/
def frame94one : Frame := List.replicate 94 1

/-- A full-length DCB frame of zeros. -/
def frame47zero : Frame := List.replicate 47 0

/-- A bus that always answers with the zero DCB frame. -/
def bus47zero : Bus := fun _ => some frame47zero

/-- Zero frames of the three PVS800/PVS980 ranges. -/
def frame7zero : Frame := List.replicate 7 0

/-- Zero frame of the second PVS800 range. -/
def frame27zero : Frame := List.replicate 27 0

/-- Zero frame of the third PVS800 range. -/
def frame8zero : Frame := List.replicate 8 0

/-- Buses answering with the PVS800 zero frames. -/
def bus7zero : Bus := fun _ => some frame7zero

/-- Bus for the second PVS800 range. -/
def bus27zero : Bus := fun _ => some frame27zero

/-- Bus for the third PVS800 range. -/
def bus8zero : Bus := fun _ => some frame8zero

/-- Zeroed telemetry inputs. -/
def st0 : RaspberryStats :=
  ⟨0, 0, 0, 0, 0, 0, 0, 0, 0, 0, 0, 0, 0, 0⟩

/-- A fixed instant with a nonzero seconds field. -/
def t0 : UtcTime := ⟨2021, 5, 17, 10, 30, 45⟩

/-- A fixed enabled device descriptor. -/
def dev0 : Device :=
  ⟨"meter1", "dcb_kernel_st0hs2425", "10.0.0.1", 502, 1, "pv", true⟩

/-- The fields the PVS800 parse produces on the zero frames. -/
def pvs800FieldsZero : List (String × FieldValue) :=
  (Pvs800.parse frame7zero frame27zero frame8zero).getD []

/-! ## Lemmas about the retry loop -/

/-- The loop performs at most fuel execute calls: every iteration
either exits (counter set to TRY_AMOUNT) or decreases the remaining
fuel by one. -/
theorem readLoopAux_calls_le (bus : Bus) (gate : Frame → Bool) :
    ∀ (fuel x : Nat) (bound : Option Frame),
      (readLoopAux bus gate fuel x bound).2 ≤ fuel := by
  intro fuel
  induction fuel with
  | zero => intro x bound; simp [readLoopAux]
  | succ n ih =>
    intro x bound
    simp only [readLoopAux]
    cases bus x with
    | none => simpa using ih (x + 1) bound
    | some f =>
      by_cases hg : gate f
      · simpa [hg] using ih (x + 1) (some f)
      · simp [hg]

/-- When every attempt raises, the loop leaves the binding unchanged
and performs exactly fuel execute calls. -/
theorem readLoopAux_allfail (bus : Bus) (gate : Frame → Bool)
    (h : ∀ i, bus i = none) :
    ∀ (fuel x : Nat) (bound : Option Frame),
      readLoopAux bus gate fuel x bound = (bound, fuel) := by
  intro fuel
  induction fuel with
  | zero => intro x bound; simp [readLoopAux]
  | succ n ih =>
    intro x bound
    simp only [readLoopAux, h x]
    simp [ih (x + 1) bound]

/-- The final binding is none exactly when it started none and every
execute call in the window raised: a successful execute always binds
the frame, whether or not the sanity gate then raises. -/
theorem readLoopAux_none_iff (bus : Bus) (gate : Frame → Bool) :
    ∀ (fuel x : Nat) (bound : Option Frame),
      (readLoopAux bus gate fuel x bound).1 = none ↔
        (bound = none ∧ ∀ i, x ≤ i → i < x + fuel → bus i = none) := by
  intro fuel
  induction fuel with
  | zero =>
    intro x bound
    simp only [readLoopAux]
    constructor
    · intro h; exact ⟨h, fun i h1 h2 => absurd h2 (by omega)⟩
    · intro h; exact h.1
  | succ n ih =>
    intro x bound
    simp only [readLoopAux]
    cases hb : bus x with
    | none =>
      simp only []
      rw [ih (x + 1) bound]
      constructor
      · rintro ⟨h1, h2⟩
        refine ⟨h1, fun i hle hlt => ?_⟩
        rcases Nat.eq_or_lt_of_le hle with heq | hlt2
        · rw [← heq]; exact hb
        · exact h2 i hlt2 (by omega)
      · rintro ⟨h1, h2⟩
        exact ⟨h1, fun i hle hlt => h2 i (by omega) (by omega)⟩
    | some f =>
      have hx : x ≤ x := le_refl x
      have hx2 : x < x + (n + 1) := by omega
      by_cases hg : gate f
      · simp only [hg, if_true]
        rw [ih (x + 1) (some f)]
        constructor
        · rintro ⟨h1, _⟩; exact absurd h1 (by simp)
        · rintro ⟨_, h2⟩
          have := h2 x hx hx2
          rw [hb] at this
          exact absurd this (by simp)
      · simp only [hg, if_false]
        constructor
        · intro h; exact absurd h (by simp)
        · rintro ⟨_, h2⟩
          have := h2 x hx hx2
          rw [hb] at this
          exact absurd this (by simp)

/-- When every attempt in the window succeeds but trips the sanity
gate, the loop consumes all attempts: exactly fuel execute calls. -/
theorem readLoopAux_gate_calls (bus : Bus) (gate : Frame → Bool) :
    ∀ (fuel x : Nat) (bound : Option Frame),
      (∀ i, x ≤ i → i < x + fuel → ∃ f, bus i = some f ∧ gate f = true) →
      (readLoopAux bus gate fuel x bound).2 = fuel := by
  intro fuel
  induction fuel with
  | zero => intro x bound _; simp [readLoopAux]
  | succ n ih =>
    intro x bound h
    obtain ⟨f, hf, hg⟩ := h x (le_refl x) (by omega)
    simp only [readLoopAux, hf, hg, if_true]
    have := ih (x + 1) (some f) (fun i h1 h2 => h i (by omega) (by omega))
    simp [this]

/-- Corollary for the whole loop: the final binding is none iff every
attempt raised. -/
theorem readLoop_none_iff (bus : Bus) (gate : Frame → Bool) (t : Nat) :
    (readLoop bus gate t).1 = none ↔ ∀ i, i < t → bus i = none := by
  unfold readLoop
  rw [readLoopAux_none_iff]
  simp

/-- Corollary: an always-raising bus consumes the whole budget and
binds nothing. -/
theorem readLoop_allfail (bus : Bus) (gate : Frame → Bool) (t : Nat)
    (h : ∀ i, bus i = none) : readLoop bus gate t = (none, t) := by
  unfold readLoop
  exact readLoopAux_allfail bus gate h t 0 none

/-! ## Lemmas about the device loop of main -/

/-- Unfolding of the fold from an arbitrary accumulated package. -/
theorem runCycle_foldl (outcome : Device → DriverOutcome) :
    ∀ (devices : List Device) (pkg : List Reading),
      devices.foldl (fun p d => cycleStep p d outcome) pkg =
        pkg ++ (enabledDevices devices).filterMap (fun d => readingPart (outcome d)) := by
  intro devices
  induction devices with
  | nil => intro pkg; simp [enabledDevices]
  | cons d ds ih =>
    intro pkg
    simp only [List.foldl_cons]
    rw [ih]
    unfold cycleStep enabledDevices
    by_cases he : d.enabled
    · cases ho : outcome d with
      | ok r => simp [he, ho, readingPart, enabledDevices]
      | failed => simp [he, ho, readingPart, enabledDevices]
      | raised => simp [he, ho, readingPart, enabledDevices]
    · simp [he, enabledDevices]

/-- The batch is exactly the successful Readings of the enabled
devices, in configuration order. -/
theorem runCycle_eq (devices : List Device) (outcome : Device → DriverOutcome) :
    runCycle devices outcome =
      (enabledDevices devices).filterMap (fun d => readingPart (outcome d)) := by
  unfold runCycle
  simpa using runCycle_foldl outcome devices []

/-- Counting lemma: keeping the ok outcomes of a list yields length
minus the number of non-ok outcomes. -/
theorem filterMap_ok_length (outcome : Device → DriverOutcome) :
    ∀ (l : List Device),
      (l.filterMap (fun d => readingPart (outcome d))).length =
        l.length - (l.filter (fun d => !(isOk (outcome d)))).length := by
  intro l
  induction l with
  | nil => simp
  | cons d ds ih =>
    have hle : (ds.filter (fun d => !(isOk (outcome d)))).length ≤ ds.length :=
      List.length_filter_le _ _
    cases ho : outcome d with
    | ok r =>
      have h1 : readingPart (outcome d) = some r := by rw [ho]; rfl
      have h2 : (!(isOk (outcome d))) = false := by rw [ho]; rfl
      simp only [List.filterMap_cons, h1, List.filter_cons, h2, List.length_cons, ih]
      rw [if_neg (by simp)]
      omega
    | failed =>
      have h1 : readingPart (outcome d) = none := by rw [ho]; rfl
      have h2 : (!(isOk (outcome d))) = true := by rw [ho]; rfl
      simp only [List.filterMap_cons, h1, List.filter_cons, h2, List.length_cons, ih]
      rw [if_pos trivial]
      simp only [List.length_cons]
      omega
    | raised =>
      have h1 : readingPart (outcome d) = none := by rw [ho]; rfl
      have h2 : (!(isOk (outcome d))) = true := by rw [ho]; rfl
      simp only [List.filterMap_cons, h1, List.filter_cons, h2, List.length_cons, ih]
      rw [if_pos trivial]
      simp only [List.length_cons]
      omega

/-! ## Codec lemmas -/

/-- Evaluation of convert_registers_to_long on in-range words found at
the requested offsets. -/
theorem convert_eval (hi lo dec start stop : Nat) (sgn : Bool) (data : List Nat)
    (hhi : hi < 2 ^ 16) (hlo : lo < 2 ^ 16) (hdec : dec ≤ 3)
    (hs : data.get? start = some hi) (ht : data.get? stop = some lo) :
    convert_registers_to_long start stop sgn dec data =
      some ((combinedInt sgn hi lo : ℚ) / ((10 ^ dec : Nat) : ℚ)) := by
  have hd : decimal dec = some (10 ^ dec) := by
    interval_cases dec <;> rfl
  have hhi2 : hi < 65536 := by norm_num at hhi; exact hhi
  have hlo2 : lo < 65536 := by norm_num at hlo; exact hlo
  unfold convert_registers_to_long combinedInt
  rw [hs, ht, hd]
  simp [hhi2, hlo2]

/-- The int32 reinterpretation agrees with the canonical two of
complement formula below 2 to the 32. -/
theorem toSigned32_eq (c : Nat) (hc : c < 2 ^ 32) :
    toSigned32 c = (((c : Int) + 2 ^ 31) % 2 ^ 32) - 2 ^ 31 := by
  unfold toSigned32
  have h32 : (2 : Int) ^ 32 = 4294967296 := by norm_num
  have h31 : (2 : Int) ^ 31 = 2147483648 := by norm_num
  have hcI : (c : Int) < 4294967296 := by exact_mod_cast hc
  have hc0 : (0 : Int) ≤ (c : Int) := Int.natCast_nonneg c
  by_cases h : c < 2 ^ 31
  · rw [if_pos h]
    have hI : (c : Int) < 2147483648 := by exact_mod_cast h
    rw [h32, h31]
    omega
  · rw [if_neg h]
    have hI : (2147483648 : Int) ≤ (c : Int) := by
      exact_mod_cast Nat.le_of_not_lt h
    rw [h32, h31]
    omega

/-- Combined words stay below 2 to the 32. -/
theorem comb_lt (hi lo : Nat) (hhi : hi < 2 ^ 16) (hlo : lo < 2 ^ 16) :
    hi * 2 ^ 16 + lo < 2 ^ 32 := by
  have h1 : (2 : Nat) ^ 16 = 65536 := by norm_num
  have h2 : (2 : Nat) ^ 32 = 4294967296 := by norm_num
  rw [h1] at hhi
  rw [h1, h2]
  nlinarith

/-- C2: convert_registers_to_long returns the big-endian concatenation
of data[start_bit] (high word) and data[stop_bit] (low word),
interpreted as two of complement int32 when signed is set and as
uint32 otherwise, divided by the scale 10 to the decimals. -/
theorem claim2_convert_spec (hi lo dec start stop : Nat) (sgn : Bool)
    (data : List Nat)
    (hhi : hi < 2 ^ 16) (hlo : lo < 2 ^ 16) (hdec : dec ≤ 3)
    (hs : data.get? start = some hi) (ht : data.get? stop = some lo) :
    convert_registers_to_long start stop sgn dec data =
      some ((((if sgn then ((((hi * 2 ^ 16 + lo : Nat) : Int) + 2 ^ 31) % 2 ^ 32 - 2 ^ 31)
              else ((hi * 2 ^ 16 + lo : Nat) : Int)) : Int) : ℚ) / (10 : ℚ) ^ dec) := by
  rw [convert_eval hi lo dec start stop sgn data hhi hlo hdec hs ht]
  have hcast : ((10 ^ dec : Nat) : ℚ) = (10 : ℚ) ^ dec := by push_cast; ring
  rw [hcast]
  have hcomb := comb_lt hi lo hhi hlo
  cases sgn with
  | false =>
    simp only [combinedInt, Bool.false_eq_true, if_false]
    norm_cast
  | true =>
    simp only [combinedInt, if_true]
    rw [toSigned32_eq _ hcomb]

/-- C2 witness: a concrete signed decode with scale 10. -/
theorem claim2_convert_spec_witness :
    convert_registers_to_long 0 1 true 1 [40000, 2] =
      some ((((((40000 * 2 ^ 16 + 2 : Nat) : Int) + 2 ^ 31) % 2 ^ 32 - 2 ^ 31 : Int) : ℚ) /
        (10 : ℚ) ^ 1) := by
  have h := claim2_convert_spec 40000 2 1 0 1 true [40000, 2]
    (by norm_num) (by norm_num) (by norm_num) rfl rfl
  rw [h]
  norm_num

/-- C6: multiplying the decoded value back by the scale recovers the
32-bit combined integer exactly (the embedding is exact rational
arithmetic), and from it the original word pair by the high and low
16-bit split. -/
theorem claim6_codec_roundtrip (hi lo dec start stop : Nat) (sgn : Bool)
    (data : List Nat) (q : ℚ)
    (hhi : hi < 2 ^ 16) (hlo : lo < 2 ^ 16) (hdec : dec ≤ 3)
    (hs : data.get? start = some hi) (ht : data.get? stop = some lo)
    (hq : convert_registers_to_long start stop sgn dec data = some q) :
    (q * (10 : ℚ) ^ dec).den = 1 ∧
    ((q * (10 : ℚ) ^ dec).num % 2 ^ 32).toNat = hi * 2 ^ 16 + lo ∧
    ((q * (10 : ℚ) ^ dec).num % 2 ^ 32).toNat / 2 ^ 16 = hi ∧
    ((q * (10 : ℚ) ^ dec).num % 2 ^ 32).toNat % 2 ^ 16 = lo := by
  rw [convert_eval hi lo dec start stop sgn data hhi hlo hdec hs ht] at hq
  have hcomb := comb_lt hi lo hhi hlo
  have hq2 : q = ((combinedInt sgn hi lo : ℚ) / ((10 ^ dec : Nat) : ℚ)) :=
    (Option.some.inj hq).symm
  have hcast : ((10 ^ dec : Nat) : ℚ) = (10 : ℚ) ^ dec := by push_cast; ring
  have hne : (10 : ℚ) ^ dec ≠ 0 := by positivity
  have hmul : q * (10 : ℚ) ^ dec = (combinedInt sgn hi lo : ℚ) := by
    rw [hq2, hcast, div_mul_cancel₀ _ hne]
  rw [hmul]
  have hden : ((combinedInt sgn hi lo : ℚ)).den = 1 := Rat.den_intCast _
  have hnum : ((combinedInt sgn hi lo : ℚ)).num = combinedInt sgn hi lo :=
    Rat.num_intCast _
  have hmod : combinedInt sgn hi lo % 2 ^ 32 = ((hi * 2 ^ 16 + lo : Nat) : Int) := by
    have h32 : (2 : Int) ^ 32 = 4294967296 := by norm_num
    have hcI : ((hi * 2 ^ 16 + lo : Nat) : Int) < 4294967296 := by
      exact_mod_cast lt_of_lt_of_le hcomb (by norm_num)
    have hc0 : (0 : Int) ≤ ((hi * 2 ^ 16 + lo : Nat) : Int) := Int.natCast_nonneg _
    cases sgn with
    | false =>
      simp only [combinedInt, Bool.false_eq_true, if_false]
      push_cast at hcI hc0 ⊢
      omega
    | true =>
      simp only [combinedInt, if_true]
      rw [toSigned32_eq _ hcomb]
      push_cast at hcI hc0 ⊢
      omega
  have htn : (combinedInt sgn hi lo % 2 ^ 32).toNat = hi * 2 ^ 16 + lo := by
    rw [hmod, Int.toNat_natCast]
  refine ⟨hden, ?_, ?_, ?_⟩
  · rw [hnum, htn]
  · rw [hnum, htn]
    have h1 : (2 : Nat) ^ 16 = 65536 := by norm_num
    rw [h1] at hlo ⊢
    omega
  · rw [hnum, htn]
    have h1 : (2 : Nat) ^ 16 = 65536 := by norm_num
    rw [h1] at hlo ⊢
    omega

/-- C6 witness: the concrete signed decode at scale 10 round-trips to
the original word pair. -/
theorem claim6_codec_roundtrip_witness :
    ((((combinedInt true 40000 2 : ℚ) / ((10 ^ 1 : Nat) : ℚ)) * (10 : ℚ) ^ 1).num
      % 2 ^ 32).toNat / 2 ^ 16 = 40000 := by
  have h := claim6_codec_roundtrip 40000 2 1 0 1 true [40000, 2]
    ((combinedInt true 40000 2 : ℚ) / ((10 ^ 1 : Nat) : ℚ))
    (by norm_num) (by norm_num) (by norm_num) rfl rfl
    (convert_eval 40000 2 1 0 1 true [40000, 2]
      (by norm_num) (by norm_num) (by norm_num) rfl rfl)
  exact h.2.2.1

/-! ## C8: totality of the codec -/

/-- C8 counterexample: on the malformed input named by the claim (a
missing offset), convert_registers_to_long raises (none); it does not
hand the caller the default numeric value 0, so the call site of the
combined decode does not always receive a number back. -/
theorem claim8_counterexample :
    convert_registers_to_long 0 1 false 0 [] = none ∧
      convert_registers_to_long 0 1 false 0 [] ≠ some 0 := by
  exact ⟨rfl, by decide⟩

/-- C8 amended: signed() alone is total with the silent-zero fallback:
an in-range word decodes by the canonical two of complement formula
and any out-of-range value yields the default 0 instead of an
exception; convert_registers_to_long, by contrast, propagates its
missing-offset error. -/
theorem claim8_signed_silent_zero_amended (v : Nat) :
    (v < 2 ^ 16 → signed v = ((v : Int) + 2 ^ 15) % 2 ^ 16 - 2 ^ 15) ∧
    (2 ^ 16 ≤ v → signed v = 0) := by
  constructor
  · intro h
    unfold signed
    rw [if_pos h]
    have h16 : (2 : Int) ^ 16 = 65536 := by norm_num
    have h15 : (2 : Int) ^ 15 = 32768 := by norm_num
    have hvI : (v : Int) < 65536 := by exact_mod_cast (by norm_num at h ⊢; exact h : v < 65536)
    have hv0 : (0 : Int) ≤ (v : Int) := Int.natCast_nonneg v
    by_cases h2 : v < 2 ^ 15
    · rw [if_pos h2]
      have hI : (v : Int) < 32768 := by exact_mod_cast (by norm_num at h2 ⊢; exact h2 : v < 32768)
      rw [h16, h15]
      omega
    · rw [if_neg h2]
      have hI : (32768 : Int) ≤ (v : Int) := by
        exact_mod_cast (by norm_num at h2 ⊢; omega : 32768 ≤ v)
      rw [h16, h15]
      omega
  · intro h
    unfold signed
    rw [if_neg (by omega)]

/-- C8 witness: the fallback at an out-of-range word and the formula
at an in-range one. -/
theorem claim8_signed_silent_zero_amended_witness :
    signed 70000 = 0 ∧ signed 40000 = ((40000 : Int) + 2 ^ 15) % 2 ^ 16 - 2 ^ 15 := by
  refine ⟨(claim8_signed_silent_zero_amended 70000).2 (by norm_num), ?_⟩
  have h := (claim8_signed_silent_zero_amended 40000).1 (by norm_num)
  simpa using h

/-! ## C10: the retry loop is bounded -/

/-- C10: for any bus behavior, any sanity gate and any attempt budget,
the retry loop terminates and performs at most tryAmount execute
calls: each iteration either exits the loop by setting the counter to
the budget or consumes one unit of the remaining budget. -/
theorem claim10_retry_bounded (bus : Bus) (gate : Frame → Bool) (tryAmount : Nat) :
    (readLoop bus gate tryAmount).2 ≤ tryAmount :=
  readLoopAux_calls_le bus gate tryAmount 0 none

/-! ## C5: the acquisition cycle batch -/

/-- C5: the device loop of main produces exactly the Readings of the
enabled devices whose driver call succeeded, in configuration order
with the failed devices removed; with N enabled devices of which M
fail (sentinel or exception), the batch length is N minus M, and no
failure aborts the loop for the remaining devices. -/
theorem claim5_cycle_batch (devices : List Device)
    (outcome : Device → DriverOutcome) :
    runCycle devices outcome =
      (enabledDevices devices).filterMap (fun d => readingPart (outcome d)) ∧
    (runCycle devices outcome).length =
      (enabledDevices devices).length -
        ((enabledDevices devices).filter (fun d => !(isOk (outcome d)))).length :=
  ⟨runCycle_eq devices outcome, by
    rw [runCycle_eq]; exact filterMap_ok_length outcome (enabledDevices devices)⟩

/-! ## C3: an always-failing bus consumes the exact budget -/

/-- C3: when every bus transaction raises, a driver performs exactly
its configured TRY_AMOUNT execute calls for the range (3 for the DCB
driver, 10 for the PVS980 driver), returns the failure sentinel False,
and the cycle records nothing for that device. -/
theorem claim3_allfail_exact_attempts (bus bus2 bus3 : Bus) (n s : String)
    (now : UtcTime) (dev : Device) (h : ∀ i, bus i = none) :
    Dcb.get_data n s now bus = .sentinelFalse ∧
    (readLoop bus noGate Dcb.TRY_AMOUNT).2 = Dcb.TRY_AMOUNT ∧
    Dcb.TRY_AMOUNT = 3 ∧
    Pvs980.get_data n s now bus bus2 bus3 = .sentinelFalse ∧
    (readLoop bus noGate Pvs980.TRY_AMOUNT).2 = Pvs980.TRY_AMOUNT ∧
    Pvs980.TRY_AMOUNT = 10 ∧
    runCycle [dev] (fun _ => outcomeOf (Dcb.get_data n s now bus)) = [] := by
  have h3 := readLoop_allfail bus noGate Dcb.TRY_AMOUNT h
  have h10 := readLoop_allfail bus noGate Pvs980.TRY_AMOUNT h
  have hdcb : Dcb.get_data n s now bus = .sentinelFalse := by
    unfold Dcb.get_data
    rw [h3]
  have hpvs : Pvs980.get_data n s now bus bus2 bus3 = .sentinelFalse := by
    unfold Pvs980.get_data
    rw [h10]
  refine ⟨hdcb, by rw [h3], rfl, hpvs, by rw [h10], rfl, ?_⟩
  unfold runCycle
  simp only [List.foldl_cons, List.foldl_nil]
  unfold cycleStep
  rw [hdcb]
  by_cases he : dev.enabled
  · simp [he, outcomeOf]
  · simp [he]

/-- C3 witness: the always-raising bus at the concrete drivers. -/
theorem claim3_allfail_exact_attempts_witness :
    Dcb.get_data "meter1" "pv" t0 busNone = .sentinelFalse ∧
    Pvs980.get_data "meter1" "pv" t0 busNone busNone busNone = .sentinelFalse ∧
    (readLoop busNone noGate Pvs980.TRY_AMOUNT).2 = 10 := by
  have h := claim3_allfail_exact_attempts busNone busNone busNone "meter1" "pv"
    t0 dev0 (fun _ => rfl)
  exact ⟨h.1, h.2.2.2.1, by rw [h.2.2.2.2.1, h.2.2.2.2.2.1]⟩

/-! ## C4: all-or-nothing per device -/

/-- A bound frame at the end of the loop comes from at least one
successful execute within the budget. -/
theorem readLoop_some_succ (bus : Bus) (gate : Frame → Bool) (t : Nat)
    (h : (readLoop bus gate t).1.isSome) :
    ∃ i, i < t ∧ (bus i).isSome := by
  by_contra hc
  push_neg at hc
  have hall : ∀ i, i < t → bus i = none := by
    intro i hi
    have := hc i hi
    cases hb : bus i with
    | none => rfl
    | some f => rw [hb] at this; simp at this
  have := (readLoop_none_iff bus gate t).mpr hall
  rw [this] at h
  exact absurd h (by simp)

/-- C4: the PVS800 driver returns a Reading only when each of its
three register transactions succeeded within the retry budget; when
one range (here the second) fails on every attempt, the driver returns
the failure sentinel and the cycle appends nothing for the device, so
no incomplete Reading reaches the batch. -/
theorem claim4_all_or_nothing (b1 b2 b3 : Bus) (n s : String) (now : UtcTime)
    (dev : Device) (r : Reading) :
    (Pvs800.get_data n s now b1 b2 b3 = .reading r →
      (∃ i, i < Pvs800.TRY_AMOUNT ∧ (b1 i).isSome) ∧
      (∃ i, i < Pvs800.TRY_AMOUNT ∧ (b2 i).isSome) ∧
      (∃ i, i < Pvs800.TRY_AMOUNT ∧ (b3 i).isSome)) ∧
    ((∀ i, b2 i = none) →
      Pvs800.get_data n s now b1 b2 b3 = .sentinelFalse ∧
      runCycle [dev] (fun _ => outcomeOf (Pvs800.get_data n s now b1 b2 b3)) = []) := by
  constructor
  · intro hr
    unfold Pvs800.get_data at hr
    cases h1 : (readLoop b1 noGate Pvs800.TRY_AMOUNT).1 with
    | none => rw [h1] at hr; exact absurd hr (by simp)
    | some f1 =>
      rw [h1] at hr
      cases h2 : (readLoop b2 noGate Pvs800.TRY_AMOUNT).1 with
      | none => rw [h2] at hr; exact absurd hr (by simp)
      | some f2 =>
        rw [h2] at hr
        cases h3 : (readLoop b3 noGate Pvs800.TRY_AMOUNT).1 with
        | none => rw [h3] at hr; exact absurd hr (by simp)
        | some f3 =>
          refine ⟨?_, ?_, ?_⟩
          · exact readLoop_some_succ b1 noGate Pvs800.TRY_AMOUNT (by rw [h1]; rfl)
          · exact readLoop_some_succ b2 noGate Pvs800.TRY_AMOUNT (by rw [h2]; rfl)
          · exact readLoop_some_succ b3 noGate Pvs800.TRY_AMOUNT (by rw [h3]; rfl)
  · intro hb2
    have hE := readLoop_allfail b2 noGate Pvs800.TRY_AMOUNT hb2
    have hfail : Pvs800.get_data n s now b1 b2 b3 = .sentinelFalse := by
      unfold Pvs800.get_data
      cases h1 : (readLoop b1 noGate Pvs800.TRY_AMOUNT).1 with
      | none => rfl
      | some f1 => rw [hE]
    refine ⟨hfail, ?_⟩
    unfold runCycle
    simp only [List.foldl_cons, List.foldl_nil]
    unfold cycleStep
    rw [hfail]
    by_cases he : dev.enabled
    · simp [he, outcomeOf]
    · simp [he]

/-- C4 witness: a run with all three ranges answering, and one with a
dead second range. -/
theorem claim4_all_or_nothing_witness :
    (∃ i, i < Pvs800.TRY_AMOUNT ∧ (bus27zero i).isSome) ∧
    Pvs800.get_data "inv1" "pv" t0 bus7zero busNone bus8zero = .sentinelFalse := by
  constructor
  · have h := (claim4_all_or_nothing bus7zero bus27zero bus8zero "inv1" "pv" t0 dev0
      (readingOf (Pvs800.get_data "inv1" "pv" t0 bus7zero bus27zero bus8zero))).1
      rfl
    exact h.2.1
  · exact ((claim4_all_or_nothing bus7zero busNone bus8zero "inv1" "pv" t0 dev0 []).2
      (fun _ => rfl)).1

/-! ## C1: the zero-voltage sanity gate -/

/-- The all-zero frame decodes a voltage of exactly 0 at the gate. -/
theorem zeroVoltGate_frame94zero : zeroVoltGate frame94zero = true := by
  have hconv : convert_registers_to_long 16 17 false 0 frame94zero = some 0 := by
    have h := convert_eval 0 0 0 16 17 false frame94zero
      (by norm_num) (by norm_num) (by norm_num) (by rfl) (by rfl)
    rw [h]
    norm_num [combinedInt]
  unfold zeroVoltGate
  rw [hconv]
  simp

/-- C1 counterexample: a bus whose every transaction succeeds but
whose voltage slice decodes to 0 on every attempt. The zero-voltage
condition persists through all TRY_AMOUNT attempts, the loop consumes
all three attempts, and yet the driver does not return the failure
sentinel False: read1 is bound in locals, so the driver goes on to
parse the zero frame and returns that Reading. -/
theorem claim1_counterexample :
    zeroVoltGate frame94zero = true ∧
    (readLoop bus94zero zeroVoltGate 3).2 = 3 ∧
    Ion7650.get_data "meter1" "pq" t0 bus94zero ≠ .sentinelFalse := by
  refine ⟨zeroVoltGate_frame94zero, ?_, ?_⟩
  · exact readLoopAux_gate_calls bus94zero zeroVoltGate 3 0 none
      (fun i h1 h2 => ⟨frame94zero, rfl, zeroVoltGate_frame94zero⟩)
  · have hnn : (readLoop bus94zero zeroVoltGate 3).1 ≠ none := by
      intro hE
      have h0 := (readLoop_none_iff bus94zero zeroVoltGate 3).mp hE 0 (by norm_num)
      simp [bus94zero] at h0
    intro hcontra
    unfold Ion7650.get_data at hcontra
    cases hE : (readLoop bus94zero zeroVoltGate Ion7650.TRY_AMOUNT).1 with
    | none => exact hnn hE
    | some f =>
      rw [hE] at hcontra
      cases hp : Ion7650.parse f <;> simp [hp] at hcontra

/-- C1 amended: in the three zero-voltage drivers, a zero decode after
a successful transaction consumes a retry attempt; the driver returns
the failure sentinel False if and only if no execute call succeeded in
all TRY_AMOUNT attempts (the bus raised every time); when transactions
succeed but the zero voltage persists through all attempts, the loop
consumes the whole budget and the driver still does not return False:
it decodes the last bound frame. -/
theorem claim1_zero_gate_amended (bus : Bus) (n s : String) (now : UtcTime) :
    (Ion7650.get_data n s now bus = .sentinelFalse ↔
      ∀ i, i < Ion7650.TRY_AMOUNT → bus i = none) ∧
    (IonInavitas.get_data n s now bus = .sentinelFalse ↔
      ∀ i, i < IonInavitas.TRY_AMOUNT → bus i = none) ∧
    (IonEkk.get_data n s now bus = .sentinelFalse ↔
      ∀ i, i < IonEkk.TRY_AMOUNT → bus i = none) ∧
    ((∀ i, i < Ion7650.TRY_AMOUNT → ∃ f, bus i = some f ∧ zeroVoltGate f = true) →
      (readLoop bus zeroVoltGate Ion7650.TRY_AMOUNT).2 = Ion7650.TRY_AMOUNT ∧
      Ion7650.get_data n s now bus ≠ .sentinelFalse) := by
  have h7650 : Ion7650.get_data n s now bus = .sentinelFalse ↔
      ∀ i, i < Ion7650.TRY_AMOUNT → bus i = none := by
    constructor
    · intro hs2
      unfold Ion7650.get_data at hs2
      cases hE : (readLoop bus zeroVoltGate Ion7650.TRY_AMOUNT).1 with
      | none => exact (readLoop_none_iff bus zeroVoltGate Ion7650.TRY_AMOUNT).mp hE
      | some f =>
        rw [hE] at hs2
        cases hp : Ion7650.parse f <;> simp [hp] at hs2
    · intro hall
      have hE : (readLoop bus zeroVoltGate Ion7650.TRY_AMOUNT).1 = none :=
        (readLoop_none_iff bus zeroVoltGate Ion7650.TRY_AMOUNT).mpr hall
      unfold Ion7650.get_data
      rw [hE]
  have hinav : IonInavitas.get_data n s now bus = .sentinelFalse ↔
      ∀ i, i < IonInavitas.TRY_AMOUNT → bus i = none := by
    constructor
    · intro hs2
      unfold IonInavitas.get_data at hs2
      cases hE : (readLoop bus zeroVoltGate IonInavitas.TRY_AMOUNT).1 with
      | none => exact (readLoop_none_iff bus zeroVoltGate IonInavitas.TRY_AMOUNT).mp hE
      | some f =>
        rw [hE] at hs2
        cases hp : IonInavitas.parse f <;> simp [hp] at hs2
    · intro hall
      have hE : (readLoop bus zeroVoltGate IonInavitas.TRY_AMOUNT).1 = none :=
        (readLoop_none_iff bus zeroVoltGate IonInavitas.TRY_AMOUNT).mpr hall
      unfold IonInavitas.get_data
      rw [hE]
  have hekk : IonEkk.get_data n s now bus = .sentinelFalse ↔
      ∀ i, i < IonEkk.TRY_AMOUNT → bus i = none := by
    constructor
    · intro hs2
      unfold IonEkk.get_data at hs2
      cases hE : (readLoop bus zeroVoltGate IonEkk.TRY_AMOUNT).1 with
      | none => exact (readLoop_none_iff bus zeroVoltGate IonEkk.TRY_AMOUNT).mp hE
      | some f =>
        rw [hE] at hs2
        cases hp : IonEkk.parse f <;> simp [hp] at hs2
    · intro hall
      have hE : (readLoop bus zeroVoltGate IonEkk.TRY_AMOUNT).1 = none :=
        (readLoop_none_iff bus zeroVoltGate IonEkk.TRY_AMOUNT).mpr hall
      unfold IonEkk.get_data
      rw [hE]
  refine ⟨h7650, hinav, hekk, ?_⟩
  intro hgate
  constructor
  · exact readLoopAux_gate_calls bus zeroVoltGate Ion7650.TRY_AMOUNT 0 none
      (fun i h1 h2 => hgate i (by simpa using h2))
  · intro hcontra
    have hall := h7650.mp hcontra
    obtain ⟨f, hf, _⟩ := hgate 0 (by decide)
    have h0 := hall 0 (by decide)
    rw [hf] at h0
    exact absurd h0 (by simp)

/-- C1 witness: the amended failure condition at an always-raising bus
and at the persistently zero-voltage bus. -/
theorem claim1_zero_gate_amended_witness :
    Ion7650.get_data "meter1" "pq" t0 busNone = .sentinelFalse ∧
    Ion7650.get_data "meter1" "pq" t0 bus94zero ≠ .sentinelFalse := by
  constructor
  · exact (claim1_zero_gate_amended busNone "meter1" "pq" t0).1.mpr (fun i _ => rfl)
  · exact ((claim1_zero_gate_amended bus94zero "meter1" "pq" t0).2.2.2
      (fun i _ => ⟨frame94zero, rfl, zeroVoltGate_frame94zero⟩)).2

/-! ## C7: status-word bit decoding -/

/-- C7: the decoded status flag is (word >> n) & 1, that is
(word >> n) mod 2, stored as the float 0.0 or 1.0; the extraction is a
pure function of the word and the position alone, so it never mutates
the word and the flags of a status word in the PVS800 parse are all
extracted from the same untouched register value, independently of one
another. -/
theorem claim7_bit_extraction (w n2 : Nat) :
    bitField w n2 = (((w >>> n2) % 2 : Nat) : ℚ) ∧
    (bitField w n2 = 0 ∨ bitField w n2 = 1) ∧
    (∀ (r1 r2 r3 : Frame) (fields : List (String × FieldValue)) (mw : Nat),
      Pvs800.parse r1 r2 r3 = some fields → r1.get? 1 = some mw →
      ("Status_Main_Faulted", FieldValue.num (bitField mw 1)) ∈ fields ∧
      ("Status_Main_Warning", FieldValue.num (bitField mw 2)) ∈ fields) := by
  refine ⟨by simp [bitField, Nat.and_one_is_mod], ?_, ?_⟩
  · rcases Nat.mod_two_eq_zero_or_one (w >>> n2) with h | h
    · left; simp [bitField, Nat.and_one_is_mod, h]
    · right; simp [bitField, Nat.and_one_is_mod, h]
  · intro r1 r2 r3 fields mw hp hmw
    unfold Pvs800.parse at hp
    split at hp
    · rename_i numerics main_w lim_w mppt_w grid_w fan_w env_w hB hM hL hP hG hF hE
      rw [hmw] at hM
      injection hM with hMw
      subst hMw
      injection hp with hf2
      subst hf2
      constructor <;> (apply List.mem_append_right; simp [bitOf])
    · simp at hp

/-- C7 witness: a concrete word and the concrete PVS800 parse. -/
theorem claim7_bit_extraction_witness :
    bitField 6 1 = 1 ∧
    ("Status_Main_Faulted", FieldValue.num (bitField 0 1)) ∈ pvs800FieldsZero := by
  constructor
  · rw [(claim7_bit_extraction 6 1).1, show (6 : Nat) >>> 1 % 2 = 1 from by decide]
    norm_num
  · exact ((claim7_bit_extraction 0 0).2.2 frame7zero frame27zero frame8zero
      pvs800FieldsZero 0 rfl rfl).1

/-! ## C9: mandatory Reading fields -/

/-- C9 counterexample: the system-telemetry Reading of
get_raspberry_internals carries no Measurement_Suffix field, so not
every Reading appended to the batch contains a measurement-suffix
tag. -/
theorem claim9_counterexample :
    "Measurement_Suffix" ∉ (get_raspberry_internals st0 t0 "00000000").map Prod.fst := by
  have hkeys : (get_raspberry_internals st0 t0 "00000000").map Prod.fst =
      ["Device_Name", "CPU_Temp", "CPU_Usage", "SystemLoad_5mins",
       "SystemLoad_10mins", "SystemLoad_15mins", "RAM_Cached", "RAM_Used",
       "RAM_Free", "RAM_Available", "RAM_Percent", "DISK_Total", "DISK_Used",
       "DISK_Free", "DISK_Percent", "Date", "Device_Serial"] := rfl
  rw [hkeys]
  decide

/-- C9 amended: every Reading a driver returns carries the device
name, the measurement-suffix tag and the minute-truncated UTC Date
(the timestamp format hard-codes the seconds to 00, so it is invariant
under truncation to the minute); the optional system-telemetry Reading
carries a device name and the same minute-truncated Date, but no
measurement-suffix tag. -/
theorem claim9_reading_fields_amended (n s : String) (now : UtcTime) :
    (∀ (bus : Bus) (r : Reading), Dcb.get_data n s now bus = .reading r →
      ("Device_Name", FieldValue.str n) ∈ r ∧
      ("Measurement_Suffix", FieldValue.str s) ∈ r ∧
      ("Date", FieldValue.str (get_timestamp_for_influxdb now)) ∈ r) ∧
    (∀ (bus : Bus) (r : Reading), Ion7650.get_data n s now bus = .reading r →
      ("Device_Name", FieldValue.str n) ∈ r ∧
      ("Measurement_Suffix", FieldValue.str s) ∈ r ∧
      ("Date", FieldValue.str (get_timestamp_for_influxdb now)) ∈ r) ∧
    (∀ (bus : Bus) (r : Reading), IonInavitas.get_data n s now bus = .reading r →
      ("Device_Name", FieldValue.str n) ∈ r ∧
      ("Measurement_Suffix", FieldValue.str s) ∈ r ∧
      ("Date", FieldValue.str (get_timestamp_for_influxdb now)) ∈ r) ∧
    (∀ (bus : Bus) (r : Reading), IonEkk.get_data n s now bus = .reading r →
      ("Device_Name", FieldValue.str n) ∈ r ∧
      ("Measurement_Suffix", FieldValue.str s) ∈ r ∧
      ("Date", FieldValue.str (get_timestamp_for_influxdb now)) ∈ r) ∧
    (∀ (b1 b2 b3 : Bus) (r : Reading), Pvs800.get_data n s now b1 b2 b3 = .reading r →
      ("Device_Name", FieldValue.str n) ∈ r ∧
      ("Measurement_Suffix", FieldValue.str s) ∈ r ∧
      ("Date", FieldValue.str (get_timestamp_for_influxdb now)) ∈ r) ∧
    (∀ (b1 b2 b3 : Bus) (r : Reading), Pvs980.get_data n s now b1 b2 b3 = .reading r →
      ("Device_Name", FieldValue.str n) ∈ r ∧
      ("Measurement_Suffix", FieldValue.str s) ∈ r ∧
      ("Date", FieldValue.str (get_timestamp_for_influxdb now)) ∈ r) ∧
    get_timestamp_for_influxdb now = get_timestamp_for_influxdb (truncateToMinute now) ∧
    (∀ (st : RaspberryStats) (serial : String),
      ("Device_Name", FieldValue.str "SOLARIAN_DATALOGGER") ∈
        get_raspberry_internals st now serial ∧
      ("Date", FieldValue.str (get_timestamp_for_influxdb now)) ∈
        get_raspberry_internals st now serial ∧
      "Measurement_Suffix" ∉ (get_raspberry_internals st now serial).map Prod.fst) := by
  refine ⟨?_, ?_, ?_, ?_, ?_, ?_, rfl, ?_⟩
  · intro bus r hr
    unfold Dcb.get_data at hr
    cases hE : (readLoop bus noGate Dcb.TRY_AMOUNT).1 with
    | none => rw [hE] at hr; simp at hr
    | some f =>
      rw [hE] at hr
      cases hp : Dcb.parse f with
      | none => simp [hp] at hr
      | some fields =>
        simp [hp] at hr
        subst hr
        refine ⟨?_, ?_, ?_⟩ <;> (apply List.mem_append_left; simp [header])
  · intro bus r hr
    unfold Ion7650.get_data at hr
    cases hE : (readLoop bus zeroVoltGate Ion7650.TRY_AMOUNT).1 with
    | none => rw [hE] at hr; simp at hr
    | some f =>
      rw [hE] at hr
      cases hp : Ion7650.parse f with
      | none => simp [hp] at hr
      | some fields =>
        simp [hp] at hr
        subst hr
        refine ⟨?_, ?_, ?_⟩ <;> (apply List.mem_append_left; simp [header])
  · intro bus r hr
    unfold IonInavitas.get_data at hr
    cases hE : (readLoop bus zeroVoltGate IonInavitas.TRY_AMOUNT).1 with
    | none => rw [hE] at hr; simp at hr
    | some f =>
      rw [hE] at hr
      cases hp : IonInavitas.parse f with
      | none => simp [hp] at hr
      | some fields =>
        simp [hp] at hr
        subst hr
        refine ⟨?_, ?_, ?_⟩ <;> (apply List.mem_append_left; simp [header])
  · intro bus r hr
    unfold IonEkk.get_data at hr
    cases hE : (readLoop bus zeroVoltGate IonEkk.TRY_AMOUNT).1 with
    | none => rw [hE] at hr; simp at hr
    | some f =>
      rw [hE] at hr
      cases hp : IonEkk.parse f with
      | none => simp [hp] at hr
      | some fields =>
        simp [hp] at hr
        subst hr
        refine ⟨?_, ?_, ?_⟩ <;> (apply List.mem_append_left; simp [header])
  · intro b1 b2 b3 r hr
    unfold Pvs800.get_data at hr
    cases h1 : (readLoop b1 noGate Pvs800.TRY_AMOUNT).1 with
    | none => rw [h1] at hr; simp at hr
    | some f1 =>
      rw [h1] at hr
      cases h2 : (readLoop b2 noGate Pvs800.TRY_AMOUNT).1 with
      | none => simp [h2] at hr
      | some f2 =>
        simp only [h2] at hr
        cases h3 : (readLoop b3 noGate Pvs800.TRY_AMOUNT).1 with
        | none => simp [h3] at hr
        | some f3 =>
          simp only [h3] at hr
          cases hp : Pvs800.parse f1 f2 f3 with
          | none => simp [hp] at hr
          | some fields =>
            simp [hp] at hr
            subst hr
            refine ⟨?_, ?_, ?_⟩ <;> (apply List.mem_append_left; simp [header])
  · intro b1 b2 b3 r hr
    unfold Pvs980.get_data at hr
    cases h1 : (readLoop b1 noGate Pvs980.TRY_AMOUNT).1 with
    | none => rw [h1] at hr; simp at hr
    | some f1 =>
      rw [h1] at hr
      cases h2 : (readLoop b2 noGate Pvs980.TRY_AMOUNT).1 with
      | none => simp [h2] at hr
      | some f2 =>
        simp only [h2] at hr
        cases h3 : (readLoop b3 noGate Pvs980.TRY_AMOUNT).1 with
        | none => simp [h3] at hr
        | some f3 =>
          simp only [h3] at hr
          cases hp : Pvs980.parse f1 f2 f3 with
          | none => simp [hp] at hr
          | some fields =>
            simp [hp] at hr
            subst hr
            refine ⟨?_, ?_, ?_⟩ <;> (apply List.mem_append_left; simp [header])
  · intro st serial
    refine ⟨?_, ?_, ?_⟩
    · simp [get_raspberry_internals]
    · simp [get_raspberry_internals]
    · have hkeys : (get_raspberry_internals st now serial).map Prod.fst =
          ["Device_Name", "CPU_Temp", "CPU_Usage", "SystemLoad_5mins",
           "SystemLoad_10mins", "SystemLoad_15mins", "RAM_Cached", "RAM_Used",
           "RAM_Free", "RAM_Available", "RAM_Percent", "DISK_Total", "DISK_Used",
           "DISK_Free", "DISK_Percent", "Date", "Device_Serial"] := rfl
      rw [hkeys]
      decide

/-- C9 witness: the Measurement_Suffix tag in a concrete successful
driver Reading, and the telemetry Reading device name. -/
theorem claim9_reading_fields_amended_witness :
    ("Measurement_Suffix", FieldValue.str "pv") ∈
      readingOf (Dcb.get_data "meter1" "pv" t0 bus47zero) ∧
    ("Device_Name", FieldValue.str "SOLARIAN_DATALOGGER") ∈
      get_raspberry_internals st0 t0 "00000000" := by
  constructor
  · exact ((claim9_reading_fields_amended "meter1" "pv" t0).1 bus47zero
      (readingOf (Dcb.get_data "meter1" "pv" t0 bus47zero)) rfl).2.1
  · exact ((claim9_reading_fields_amended "meter1" "pv" t0).2.2.2.2.2.2.2
      st0 "00000000").1

end Solarian
